import Mathlib

/-!
Verification of the Call Event Ingestion and Scoring Pipeline of the
Sync Assist standalone AI calling service (a Laravel application whose
source is given in `STANDALONE_AI_CALLING_SERVICE.md`).

The PHP source is shallowly embedded:

* `OpenAIService.analyzeCallSummaryForInterestLevel` embeds the method of
  the same name in `app/Services/OpenAIService.php`.  The external
  reasoning service is a parameter `responses : Nat → Resp` giving the
  HTTP response to the i-th request issued; the returned trace records
  how many requests were issued, which backoff delays were slept, and
  the PHP array the method returns.  PHP associative arrays are embedded
  as `List (String × PhpVal)` so that the exact key names the code uses
  are part of the model.
* `ProcessElevenLabsWebhook.handle` embeds the `handle` method of
  `app/Jobs/ProcessElevenLabsWebhook.php`.  The relational store
  (contacts, properties, notes, contact_property pivot) and the object
  store are an explicit `Db` value threaded through; `date('Y/m/d')`,
  `now()`, the recording download and the reasoning service are supplied
  by a `JobEnv`.
* `ElevenLabsController.handleWebhook` / `verifySignature` embed the
  controller in `app/Http/Controllers/ElevenLabsController.php`.  The
  cryptographic primitive `base64_encode(hash_hmac('sha256', body,
  secret, true))` is abstracted as a parameter `hmacSha256Base64 :
  String → String → String`; the controller's logic (compute the MAC of
  the raw body, compare with `hash_equals`, abort with 401 before
  dispatching on mismatch) is embedded faithfully.

PHP-specific semantics that the claims touch are modelled explicitly:
string truthiness (`""` and `"0"` are falsy), `(int)` casts, `??` null
coalescing on missing array keys, and `?:` on falsy values.
-/

/-- A PHP scalar value as it occurs in the arrays the classification
client returns: a string or an integer. -/
inductive PhpVal where
  | str (s : String)
  | int (n : Int)
deriving DecidableEq, Repr

/-- PHP string truthiness: the empty string and the string "0" are falsy,
every other string is truthy (`if ($s)`, `$s ?: null`). -/
def phpTruthyStr (s : String) : Bool :=
  s ≠ "" && s ≠ "0"

/-- PHP `(int)` cast of a string: skip leading whitespace, read an
optional sign and then the leading run of digits; anything else is 0. -/
def phpStrToInt (s : String) : Int :=
  let cs := s.toList.dropWhile Char.isWhitespace
  let signed : Int × List Char :=
    match cs with
    | '-' :: t => (-1, t)
    | '+' :: t => (1, t)
    | _ => (1, cs)
  let digits := signed.2.takeWhile Char.isDigit
  signed.1 * digits.foldl (fun acc c => acc * 10 + (Int.ofNat (c.toNat - '0'.toNat))) 0

/-- PHP `(int)` cast of a scalar. -/
def phpValToInt : PhpVal → Int
  | .int n => n
  | .str s => phpStrToInt s

/-- PHP string coercion of a scalar. -/
def phpValToStr : PhpVal → String
  | .str s => s
  | .int n => toString n

/-- Array read `$a[k]` on an associative array, `none` when the key is
absent (so `$a[k] ?? d` is `(arrGet a k).getD d`). -/
def arrGet (a : List (String × PhpVal)) (k : String) : Option PhpVal :=
  (a.find? (fun p => p.1 == k)).map (fun p => p.2)

/-- The JSON object obtained by `json_decode` of the reasoning service's
message content: the three optional keys the code reads with `data_get`. -/
structure ParsedContent where
  interest_level : Option String
  interest_score : Option Int
  rationale : Option String
deriving DecidableEq, Repr

/-- One HTTP response from the external reasoning service.  `content`
models `json_decode(data_get($resp->json(), 'choices.0.message.content'),
true)`: `none` when the content is absent or not parseable JSON. -/
structure Resp where
  status : Nat
  content : Option ParsedContent
deriving DecidableEq, Repr

/-- Laravel `$resp->successful()`: status in [200, 300). -/
def respSuccessful (r : Resp) : Bool :=
  decide (200 ≤ r.status ∧ r.status < 300)

/-- Laravel `$resp->failed()`: client or server error, status ≥ 400. -/
def respFailed (r : Resp) : Bool :=
  decide (400 ≤ r.status)

/-- Outcome of the retry loop: number of requests issued, delays slept,
and the last response received (`none` only for an empty backoff list,
matching `$resp = null` before the `foreach`). -/
structure LoopOut where
  attempts : Nat
  sleeps : List Nat
  last : Option Resp
deriving Repr

/-- The `foreach ($backoff as $i => $delay)` loop of
`analyzeCallSummaryForInterestLevel`: issue a request; break on success;
on a 5xx or 429 response sleep the delay and continue; on anything else
break. -/
def analyzeLoop (responses : Nat → Resp) : Nat → List Nat → LoopOut
  | _, [] => ⟨0, [], none⟩
  | idx, delay :: rest =>
    let r := responses idx
    if respSuccessful r then ⟨1, [], some r⟩
    else if 500 ≤ r.status ∨ r.status = 429 then
      let out := analyzeLoop responses (idx + 1) rest
      ⟨out.attempts + 1, delay :: out.sleeps, some (out.last.getD r)⟩
    else ⟨1, [], some r⟩

/-- The array returned when `!$resp || $resp->failed()`. -/
def analysisFailedResult : List (String × PhpVal) :=
  [("interest_level", .str "unknown"), ("interest_score", .int 0),
   ("rationale", .str "analysis_failed")]

/-- `in_array(data_get($parsed, 'interest_level'), ['unknown','cold','warm','hot'])
? $parsed['interest_level'] : 'unknown'`. -/
def levelFromParsed (parsed : Option ParsedContent) : String :=
  match parsed.bind (fun c => c.interest_level) with
  | some s => if s ∈ ["unknown", "cold", "warm", "hot"] then s else "unknown"
  | none => "unknown"

/-- `(int) max(0, min(100, (int) data_get($parsed, 'interest_score', 0)))`. -/
def scoreFromParsed (parsed : Option ParsedContent) : Int :=
  max 0 (min 100 ((parsed.bind (fun c => c.interest_score)).getD 0))

/-- `(string) data_get($parsed, 'rationale', '')`. -/
def rationaleFromParsed (parsed : Option ParsedContent) : String :=
  (parsed.bind (fun c => c.rationale)).getD ""

/-- The trace of one call to the classification client: requests issued,
backoff delays slept, and the PHP array returned. -/
structure AnalyzeTrace where
  attempts : Nat
  sleeps : List Nat
  result : List (String × PhpVal)
deriving Repr

namespace OpenAIService

/-- `OpenAIService::analyzeCallSummaryForInterestLevel($summary)`.
The backoff schedule is the literal `[1, 2, 4]` of the source; after the
loop, a null or failed response yields the failure array, otherwise the
content is parsed, the level coerced to the enum, the score clamped, and
the array `compact('level','score','rationale')` — whose keys are
`level`, `score`, `rationale` — is returned. -/
def analyzeCallSummaryForInterestLevel (responses : Nat → Resp)
    (summary : String) : AnalyzeTrace :=
  let _prompt := "Classify the lead's interest level ... Summary:\n" ++ summary
  let out := analyzeLoop responses 0 [1, 2, 4]
  match out.last with
  | none => ⟨out.attempts, out.sleeps, analysisFailedResult⟩
  | some r =>
    if respFailed r then ⟨out.attempts, out.sleeps, analysisFailedResult⟩
    else
      ⟨out.attempts, out.sleeps,
        [("level", .str (levelFromParsed r.content)),
         ("score", .int (scoreFromParsed r.content)),
         ("rationale", .str (rationaleFromParsed r.content))]⟩

end OpenAIService

example :
    (OpenAIService.analyzeCallSummaryForInterestLevel
      (fun _ => ⟨500, none⟩) "hi").attempts = 3 := by decide

example :
    (OpenAIService.analyzeCallSummaryForInterestLevel
      (fun _ => ⟨500, none⟩) "hi").sleeps = [1, 2, 4] := by decide

example :
    (OpenAIService.analyzeCallSummaryForInterestLevel
      (fun _ => ⟨404, none⟩) "hi").attempts = 1 := by decide

example :
    (OpenAIService.analyzeCallSummaryForInterestLevel
      (fun _ => ⟨200, some ⟨some "maybe", some 150, some "r"⟩⟩) "hi").result
      = [("level", .str "unknown"), ("score", .int 100), ("rationale", .str "r")] := by
  decide

/-- The polymorphic owner of a Note (`notable_type`/`notable_id` morph):
`App\Models\Contact` or `App\Models\Property` with the record id. -/
inductive NotableRef where
  | contact (id : Int)
  | property (id : Int)
deriving DecidableEq, Repr

/-- The inbound webhook payload `$this->payload` (`$request->all()`):
the six keys the job reads, each possibly absent. -/
structure Payload where
  conversation_id : Option String
  summary : Option String
  transcript : Option String
  recording_url : Option String
  contact_id : Option Int
  property_id : Option Int
deriving DecidableEq, Repr

/-- A row of the `notes` table as created by the job. `meta_raw` is the
raw payload stored under `meta.raw`. -/
structure Note where
  notable : NotableRef
  type : String
  title : String
  body : Option String
  conversation_id : Option String
  recording_path : Option String
  transcript_path : Option String
  meta_raw : Payload
deriving DecidableEq, Repr

/-- A row of the `contact_property` pivot table (the Association),
restricted to the columns the job writes. -/
structure Assoc where
  contact_id : Int
  property_id : Int
  interest_level : String
  interest_score : Int
  last_contacted_at : Option Nat
  last_conversation_id : Option String
deriving DecidableEq, Repr

/-- The persistent stores the job touches: the ids of existing contacts
and properties, the notes table, the contact_property pivot table, and
the object store as a key/content map. -/
structure Db where
  contacts : List Int
  properties : List Int
  notes : List Note
  assocs : List Assoc
  storage : List (String × String)
deriving DecidableEq, Repr

/-- `Storage::put($key, $content)`: overwrite the object at the key, or
create it. -/
def storagePut (st : List (String × String)) (k v : String) :
    List (String × String) :=
  if st.any (fun p => p.1 == k) then
    st.map (fun p => if p.1 == k then (k, v) else p)
  else st ++ [(k, v)]

/-- `Storage::get($key)` / existence of an object at the key. -/
def storageGet (st : List (String × String)) (k : String) : Option String :=
  (st.find? (fun p => p.1 == k)).map (fun p => p.2)

/-- `Model::find($id)` against a table of ids: the record when present. -/
def findId (tbl : List Int) (i : Int) : Option Int :=
  tbl.find? (fun x => x == i)

/-- The pivot row for a (contact, property) pair, if any. -/
def findAssoc (assocs : List Assoc) (cid pid : Int) : Option Assoc :=
  assocs.find? (fun a => a.contact_id == cid && a.property_id == pid)

/-- `$contact->properties()->syncWithoutDetaching([$propertyId => attrs])`:
update the pivot row for the pair when it exists, otherwise attach a new
row with the given attributes. -/
def syncWithoutDetaching (assocs : List Assoc) (cid pid : Int)
    (level : String) (score : Int) (now : Nat) (convId : String) :
    List Assoc :=
  if assocs.any (fun a => a.contact_id == cid && a.property_id == pid) then
    assocs.map (fun a =>
      if a.contact_id == cid && a.property_id == pid then
        { a with interest_level := level, interest_score := score,
                 last_contacted_at := some now,
                 last_conversation_id := some convId }
      else a)
  else
    assocs ++ [⟨cid, pid, level, score, some now, some convId⟩]

/-- Outcome of `Http::get($recordingUrl)`: a thrown connection error
(caught and logged by the job) or a response with status and body. -/
inductive FetchResult where
  | throwErr
  | resp (status : Nat) (body : String)

/-- The job's environment: `date('Y/m/d')`, `now()`, the recording
download, and the reasoning service's responses by request index. -/
structure JobEnv where
  date : String
  now : Nat
  fetchRecording : String → FetchResult
  classResponses : Nat → Resp

namespace ProcessElevenLabsWebhook

/-- `ProcessElevenLabsWebhook::handle`, the Call Event Processor.
Field extraction uses the PHP casts of the source
(`(string)($data[k] ?? '')`, `(int)($data[k] ?? 0)`); the transcript is
stored when truthy; the recording is downloaded best-effort; a Note is
created when the contact or, failing that, the property resolves (no
check for an existing Note); classification is always invoked; the pivot
is synced when both ids are truthy and the contact resolves.  The method
body raises no exception on any path (the recording download is wrapped
in try/catch), so the embedding is a total function on `Db`. -/
def handle (env : JobEnv) (db : Db) (payload : Payload) : Db :=
  let conversationId := payload.conversation_id.getD ""
  let summary := payload.summary.getD ""
  let transcript := payload.transcript.getD ""
  let recordingUrl := payload.recording_url.getD ""
  let contactId := payload.contact_id.getD 0
  let propertyId := payload.property_id.getD 0
  -- Persist transcript
  let transcriptPath : Option String :=
    if phpTruthyStr transcript then
      some ("calls/" ++ env.date ++ "/" ++ conversationId ++ "-transcript.txt")
    else none
  let storage1 :=
    match transcriptPath with
    | some p => storagePut db.storage p transcript
    | none => db.storage
  -- Download recording to S3
  let recordingPath : Option String :=
    if phpTruthyStr recordingUrl then
      match env.fetchRecording recordingUrl with
      | .throwErr => none
      | .resp status _ =>
        if 200 ≤ status ∧ status < 300 then
          some ("calls/" ++ env.date ++ "/" ++ conversationId ++ "-recording.mp3")
        else none
    else none
  let storage2 :=
    if phpTruthyStr recordingUrl then
      match env.fetchRecording recordingUrl with
      | .throwErr => storage1
      | .resp status body =>
        if 200 ≤ status ∧ status < 300 then
          storagePut storage1
            ("calls/" ++ env.date ++ "/" ++ conversationId ++ "-recording.mp3") body
        else storage1
    else storage1
  -- Create Note: $notable = Contact::find($contactId) ?: Property::find($propertyId)
  let notable : Option NotableRef :=
    ((findId db.contacts contactId).map NotableRef.contact)
      <|> ((findId db.properties propertyId).map NotableRef.property)
  let notes1 :=
    match notable with
    | some nref =>
      db.notes ++
        [{ notable := nref, type := "call_summary", title := "AI Call Summary",
           body := if phpTruthyStr summary then some summary else none,
           conversation_id :=
             if phpTruthyStr conversationId then some conversationId else none,
           recording_path := recordingPath, transcript_path := transcriptPath,
           meta_raw := payload }]
    | none => db.notes
  -- Interest analysis
  let analysis :=
    OpenAIService.analyzeCallSummaryForInterestLevel env.classResponses summary
  let level := ((arrGet analysis.result "level").map phpValToStr).getD "unknown"
  let score := phpValToInt ((arrGet analysis.result "score").getD (.int 0))
  let assocs1 :=
    if contactId ≠ 0 ∧ propertyId ≠ 0 then
      match findId db.contacts contactId with
      | some _ =>
        syncWithoutDetaching db.assocs contactId propertyId level score
          env.now conversationId
      | none => db.assocs
    else db.assocs
  { db with notes := notes1, assocs := assocs1, storage := storage2 }

end ProcessElevenLabsWebhook

/-- An inbound HTTP request to the webhook endpoint: the raw body, the
`X-ElevenLabs-Signature` header (possibly absent), and the parsed
payload `$request->all()`. -/
structure WebhookRequest where
  body : String
  sigHeader : Option String
  payload : Payload
deriving DecidableEq, Repr

/-- The controller's visible outcome: the 202-equivalent
`{status: "accepted"}` JSON, or the 401 abort. -/
inductive WebhookOutcome where
  | accepted
  | unauthorized
deriving DecidableEq, Repr

/-- Result of handling one webhook request: response plus queue state. -/
structure WebhookResult where
  outcome : WebhookOutcome
  queue : List Payload
deriving DecidableEq, Repr

namespace ElevenLabsController

/-- `ElevenLabsController::verifySignature`: compute
`base64_encode(hash_hmac('sha256', $payload, $secret, true))` over the
raw body — the primitive is the parameter `hmacSha256Base64` — and
compare to the header with `hash_equals` (a constant-time string
equality); a missing header is cast to `""`. -/
def verifySignature (hmacSha256Base64 : String → String → String)
    (secret : String) (req : WebhookRequest) : Bool :=
  let sig := req.sigHeader.getD ""
  let computedMac := hmacSha256Base64 secret req.body
  computedMac == sig

/-- `ElevenLabsController::handleWebhook`: verify the signature (a
failed check aborts with 401 before anything else runs), then dispatch
`ProcessElevenLabsWebhook` with the payload and return
`{status: "accepted"}`. -/
def handleWebhook (hmacSha256Base64 : String → String → String)
    (secret : String) (queue : List Payload) (req : WebhookRequest) :
    WebhookResult :=
  if verifySignature hmacSha256Base64 secret req then
    ⟨.accepted, queue ++ [req.payload]⟩
  else
    ⟨.unauthorized, queue⟩

end ElevenLabsController

/-! ### Object-store keys -/

theorem transcriptKey_ne_recordingKey (d c : String) :
    ("calls/" ++ d ++ "/" ++ c ++ "-transcript.txt")
      ≠ ("calls/" ++ d ++ "/" ++ c ++ "-recording.mp3") := by
  intro h
  have h2 := congrArg String.length h
  simp only [String.length_append] at h2
  have e1 : ("-transcript.txt" : String).length = 15 := rfl
  have e2 : ("-recording.mp3" : String).length = 14 := rfl
  rw [e1, e2] at h2
  omega

theorem emptyCid_transcript_key (d : String) :
    "calls/" ++ d ++ "/" ++ "" ++ "-transcript.txt"
      = "calls/" ++ d ++ "/-transcript.txt" := by
  have h1 : ("/" : String) ++ "-transcript.txt" = "/-transcript.txt" := rfl
  rw [String.append_empty, String.append_assoc, h1]

/-! ### Projections of the job's effect on each store -/

theorem handle_contacts (env : JobEnv) (db : Db) (p : Payload) :
    (ProcessElevenLabsWebhook.handle env db p).contacts = db.contacts := rfl

theorem handle_properties (env : JobEnv) (db : Db) (p : Payload) :
    (ProcessElevenLabsWebhook.handle env db p).properties = db.properties := rfl

theorem handle_notes (env : JobEnv) (db : Db) (p : Payload) :
    (ProcessElevenLabsWebhook.handle env db p).notes =
      (match ((findId db.contacts (p.contact_id.getD 0)).map NotableRef.contact)
          <|> ((findId db.properties (p.property_id.getD 0)).map NotableRef.property) with
      | some nref =>
        db.notes ++
          [{ notable := nref, type := "call_summary", title := "AI Call Summary",
             body := if phpTruthyStr (p.summary.getD "") then some (p.summary.getD "") else none,
             conversation_id :=
               if phpTruthyStr (p.conversation_id.getD "") then some (p.conversation_id.getD "")
               else none,
             recording_path :=
               if phpTruthyStr (p.recording_url.getD "") then
                 match env.fetchRecording (p.recording_url.getD "") with
                 | .throwErr => none
                 | .resp status _ =>
                   if 200 ≤ status ∧ status < 300 then
                     some ("calls/" ++ env.date ++ "/" ++ p.conversation_id.getD ""
                       ++ "-recording.mp3")
                   else none
               else none,
             transcript_path :=
               if phpTruthyStr (p.transcript.getD "") then
                 some ("calls/" ++ env.date ++ "/" ++ p.conversation_id.getD ""
                   ++ "-transcript.txt")
               else none,
             meta_raw := p }]
      | none => db.notes) := rfl

theorem handle_assocs (env : JobEnv) (db : Db) (p : Payload) :
    (ProcessElevenLabsWebhook.handle env db p).assocs =
      (if p.contact_id.getD 0 ≠ 0 ∧ p.property_id.getD 0 ≠ 0 then
        match findId db.contacts (p.contact_id.getD 0) with
        | some _ =>
          syncWithoutDetaching db.assocs (p.contact_id.getD 0) (p.property_id.getD 0)
            (((arrGet (OpenAIService.analyzeCallSummaryForInterestLevel
              env.classResponses (p.summary.getD "")).result "level").map phpValToStr).getD
              "unknown")
            (phpValToInt ((arrGet (OpenAIService.analyzeCallSummaryForInterestLevel
              env.classResponses (p.summary.getD "")).result "score").getD (.int 0)))
            env.now (p.conversation_id.getD "")
        | none => db.assocs
      else db.assocs) := rfl

theorem handle_storage (env : JobEnv) (db : Db) (p : Payload) :
    (ProcessElevenLabsWebhook.handle env db p).storage =
      (let storage1 :=
        match (if phpTruthyStr (p.transcript.getD "") then
            some ("calls/" ++ env.date ++ "/" ++ p.conversation_id.getD ""
              ++ "-transcript.txt")
          else none) with
        | some pa => storagePut db.storage pa (p.transcript.getD "")
        | none => db.storage
      if phpTruthyStr (p.recording_url.getD "") then
        match env.fetchRecording (p.recording_url.getD "") with
        | .throwErr => storage1
        | .resp status body =>
          if 200 ≤ status ∧ status < 300 then
            storagePut storage1
              ("calls/" ++ env.date ++ "/" ++ p.conversation_id.getD ""
                ++ "-recording.mp3") body
          else storage1
      else storage1) := rfl

/-! ### Helper lemmas -/

theorem analyzeLoop_cons_success (responses : Nat → Resp) (idx d : Nat)
    (rest : List Nat) (h : respSuccessful (responses idx) = true) :
    analyzeLoop responses idx (d :: rest) = ⟨1, [], some (responses idx)⟩ := by
  simp [analyzeLoop, h]

theorem analyzeLoop_cons_retry (responses : Nat → Resp) (idx d : Nat)
    (rest : List Nat)
    (h : 500 ≤ (responses idx).status ∨ (responses idx).status = 429) :
    analyzeLoop responses idx (d :: rest) =
      ⟨(analyzeLoop responses (idx + 1) rest).attempts + 1,
       d :: (analyzeLoop responses (idx + 1) rest).sleeps,
       some ((analyzeLoop responses (idx + 1) rest).last.getD (responses idx))⟩ := by
  have hs : respSuccessful (responses idx) = false := by
    simp only [respSuccessful, decide_eq_false_iff_not, not_and, not_lt]
    intro _
    rcases h with h | h <;> omega
  simp [analyzeLoop, hs, h]

theorem analyzeLoop_cons_abort (responses : Nat → Resp) (idx d : Nat)
    (rest : List Nat) (hs : respSuccessful (responses idx) = false)
    (hr : ¬(500 ≤ (responses idx).status ∨ (responses idx).status = 429)) :
    analyzeLoop responses idx (d :: rest) = ⟨1, [], some (responses idx)⟩ := by
  simp [analyzeLoop, hs, hr]

theorem analyzeLoop_attempts_le (responses : Nat → Resp) :
    ∀ (l : List Nat) (idx : Nat),
    (analyzeLoop responses idx l).attempts ≤ l.length := by
  intro l
  induction l with
  | nil => intro idx; simp [analyzeLoop]
  | cons d rest ih =>
    intro idx
    cases hs : respSuccessful (responses idx) with
    | true =>
      rw [analyzeLoop_cons_success responses idx d rest hs]
      simp
    | false =>
      by_cases hr : 500 ≤ (responses idx).status ∨ (responses idx).status = 429
      · rw [analyzeLoop_cons_retry responses idx d rest hr]
        simpa using Nat.succ_le_succ (ih (idx + 1))
      · rw [analyzeLoop_cons_abort responses idx d rest hs hr]
        simp

theorem analyzeLoop_attempts_pos (responses : Nat → Resp) (idx d : Nat)
    (rest : List Nat) : 1 ≤ (analyzeLoop responses idx (d :: rest)).attempts := by
  cases hs : respSuccessful (responses idx) with
  | true =>
    rw [analyzeLoop_cons_success responses idx d rest hs]
  | false =>
    by_cases hr : 500 ≤ (responses idx).status ∨ (responses idx).status = 429
    · rw [analyzeLoop_cons_retry responses idx d rest hr]
      simp
    · rw [analyzeLoop_cons_abort responses idx d rest hs hr]

theorem analyze_attempts_eq (responses : Nat → Resp) (summary : String) :
    (OpenAIService.analyzeCallSummaryForInterestLevel responses summary).attempts
      = (analyzeLoop responses 0 [1, 2, 4]).attempts := by
  unfold OpenAIService.analyzeCallSummaryForInterestLevel
  cases hlast : (analyzeLoop responses 0 [1, 2, 4]).last with
  | none => simp [hlast]
  | some r => cases hf : respFailed r <;> simp [hlast, hf]

theorem analyze_first_success (responses : Nat → Resp) (summary : String)
    (h1 : 200 ≤ (responses 0).status) (h2 : (responses 0).status < 300) :
    OpenAIService.analyzeCallSummaryForInterestLevel responses summary =
      ⟨1, [],
       [("level", .str (levelFromParsed (responses 0).content)),
        ("score", .int (scoreFromParsed (responses 0).content)),
        ("rationale", .str (rationaleFromParsed (responses 0).content))]⟩ := by
  have hsucc : respSuccessful (responses 0) = true := by
    simp only [respSuccessful, decide_eq_true_eq]
    exact ⟨h1, h2⟩
  have hfail : respFailed (responses 0) = false := by
    simp only [respFailed, decide_eq_false_iff_not, not_le]
    omega
  unfold OpenAIService.analyzeCallSummaryForInterestLevel
  rw [analyzeLoop_cons_success responses 0 1 [2, 4] hsucc]
  simp [hfail]

theorem analyze_all_retryable (responses : Nat → Resp) (summary : String)
    (h : ∀ i, i < 3 → 500 ≤ (responses i).status ∨ (responses i).status = 429) :
    OpenAIService.analyzeCallSummaryForInterestLevel responses summary
      = ⟨3, [1, 2, 4], analysisFailedResult⟩ := by
  have h0 := h 0 (by omega)
  have h1 := h 1 (by omega)
  have h2 := h 2 (by omega)
  have hl2 : analyzeLoop responses 2 [4] = ⟨1, [4], some (responses 2)⟩ := by
    rw [analyzeLoop_cons_retry responses 2 4 [] h2]
    simp [analyzeLoop]
  have hl1 : analyzeLoop responses 1 [2, 4] = ⟨2, [2, 4], some (responses 2)⟩ := by
    rw [analyzeLoop_cons_retry responses 1 2 [4] h1, hl2]
    simp
  have hl0 : analyzeLoop responses 0 [1, 2, 4] = ⟨3, [1, 2, 4], some (responses 2)⟩ := by
    rw [analyzeLoop_cons_retry responses 0 1 [2, 4] h0, hl1]
    simp
  have hfail : respFailed (responses 2) = true := by
    simp only [respFailed, decide_eq_true_eq]
    rcases h2 with h | h <;> omega
  unfold OpenAIService.analyzeCallSummaryForInterestLevel
  rw [hl0]
  simp [hfail]

theorem analyze_first_abort (responses : Nat → Resp) (summary : String)
    (h4 : 400 ≤ (responses 0).status) (h5 : (responses 0).status < 500)
    (h9 : (responses 0).status ≠ 429) :
    OpenAIService.analyzeCallSummaryForInterestLevel responses summary
      = ⟨1, [], analysisFailedResult⟩ := by
  have hs : respSuccessful (responses 0) = false := by
    simp only [respSuccessful, decide_eq_false_iff_not, not_and, not_lt]
    omega
  have hr : ¬(500 ≤ (responses 0).status ∨ (responses 0).status = 429) := by
    push_neg
    omega
  have hfail : respFailed (responses 0) = true := by
    simp only [respFailed, decide_eq_true_eq]
    omega
  unfold OpenAIService.analyzeCallSummaryForInterestLevel
  rw [analyzeLoop_cons_abort responses 0 1 [2, 4] hs hr]
  simp [hfail]

theorem levelFromParsed_mem (parsed : Option ParsedContent) :
    levelFromParsed parsed ∈ (["unknown", "cold", "warm", "hot"] : List String) := by
  unfold levelFromParsed
  cases parsed.bind (fun c => c.interest_level) with
  | none => simp
  | some s =>
    by_cases hs : s ∈ (["unknown", "cold", "warm", "hot"] : List String)
    · simp [hs]
    · simp [hs]

theorem scoreFromParsed_nonneg (parsed : Option ParsedContent) :
    0 ≤ scoreFromParsed parsed :=
  le_max_left 0 _

theorem scoreFromParsed_le (parsed : Option ParsedContent) :
    scoreFromParsed parsed ≤ 100 :=
  max_le (by norm_num) (min_le_left _ _)

theorem arrGet_result_level (x y z : PhpVal) :
    arrGet [("level", x), ("score", y), ("rationale", z)] "level" = some x := rfl

theorem arrGet_result_score (x y z : PhpVal) :
    arrGet [("level", x), ("score", y), ("rationale", z)] "score" = some y := rfl

theorem arrGet_failed_level :
    arrGet analysisFailedResult "level" = none := rfl

theorem arrGet_failed_score :
    arrGet analysisFailedResult "score" = none := rfl

theorem findId_mem (tbl : List Int) (i : Int) (h : i ∈ tbl) :
    findId tbl i = some i := by
  induction tbl with
  | nil => simp at h
  | cons x xs ih =>
    by_cases hx : x = i
    · subst hx
      simp [findId, List.find?_cons_of_pos]
    · rcases List.mem_cons.mp h with h1 | h1
      · exact absurd h1.symm hx
      · simp only [findId] at ih ⊢
        rw [List.find?_cons_of_neg _ (by simp [hx])]
        exact ih h1

theorem findId_not_mem (tbl : List Int) (i : Int) (h : i ∉ tbl) :
    findId tbl i = none := by
  simp only [findId]
  rw [List.find?_eq_none]
  intro x hx
  simp only [beq_iff_eq]
  rintro rfl
  exact h hx

theorem put_map_find (k v : String) : ∀ st : List (String × String),
    (st.any fun p => p.1 == k) = true →
    ((st.map fun p => if p.1 == k then (k, v) else p).find? fun p => p.1 == k)
      = some (k, v) := by
  intro st
  induction st with
  | nil => intro h; simp at h
  | cons a as ih =>
    intro h
    by_cases ha : (a.1 == k) = true
    · have ha' : a.1 = k := beq_iff_eq.mp ha
      simp [List.find?_cons, ha', -List.find?_map]
    · have ha' : ¬a.1 = k := fun hh => ha (beq_iff_eq.mpr hh)
      have h' : (as.any fun p => p.1 == k) = true := by
        rw [List.any_cons] at h
        rcases Bool.or_eq_true_iff.mp h with h1 | h1
        · exact absurd h1 ha
        · exact h1
      simpa [List.find?_cons, ha', -List.find?_map] using ih h' 

theorem put_map_find_ne (k k' v : String) (hne : k' ≠ k) :
    ∀ st : List (String × String),
    ((st.map fun p => if p.1 == k then (k, v) else p).find? fun p => p.1 == k')
      = st.find? fun p => p.1 == k' := by
  have hkk' : ¬k = k' := fun hh => hne hh.symm
  intro st
  induction st with
  | nil => simp
  | cons a as ih =>
    by_cases ha : a.1 = k
    · simpa [List.find?_cons, ha, hkk', -List.find?_map] using ih
    · by_cases hak : a.1 = k'
      · simp [List.find?_cons, ha, hak, hne, -List.find?_map]
      · simpa [List.find?_cons, ha, hak, hne, -List.find?_map] using ih

theorem sync_map_find (cid pid : Int) (level : String) (score : Int)
    (now : Nat) (convId : String) : ∀ assocs : List Assoc,
    (assocs.any fun a => a.contact_id == cid && a.property_id == pid) = true →
    ((assocs.map fun a =>
        if a.contact_id == cid && a.property_id == pid then
          { a with interest_level := level, interest_score := score,
                   last_contacted_at := some now,
                   last_conversation_id := some convId }
        else a).find? fun a => a.contact_id == cid && a.property_id == pid)
      = some ⟨cid, pid, level, score, some now, some convId⟩ := by
  intro assocs
  induction assocs with
  | nil => intro h; simp at h
  | cons a as ih =>
    intro h
    by_cases ha : (a.contact_id == cid && a.property_id == pid) = true
    · have hc : a.contact_id = cid := beq_iff_eq.mp (Bool.and_eq_true_iff.mp ha).1
      have hp : a.property_id = pid := beq_iff_eq.mp (Bool.and_eq_true_iff.mp ha).2
      obtain ⟨ac, ap, x1, x2, x3, x4⟩ := a
      simp only at hc hp
      subst hc hp
      simp [List.find?_cons, -List.find?_map]
    · have h' : (as.any fun a => a.contact_id == cid && a.property_id == pid) = true := by
        rw [List.any_cons] at h
        rcases Bool.or_eq_true_iff.mp h with h1 | h1
        · exact absurd h1 ha
        · exact h1
      rcases Bool.and_eq_true_iff.not.mp ha with hboth
      simp only [Bool.and_eq_true, beq_iff_eq, not_and] at hboth
      by_cases hc : a.contact_id = cid
      · have hp : ¬a.property_id = pid := by
          intro hpp
          exact ha (by simp [hc, hpp])
        simpa [List.find?_cons, hc, hp, -List.find?_map] using ih h'
      · simpa [List.find?_cons, hc, -List.find?_map] using ih h' 

theorem storageGet_put_same (st : List (String × String)) (k v : String) :
    storageGet (storagePut st k v) k = some v := by
  unfold storagePut storageGet
  by_cases h : (st.any fun p => p.1 == k) = true
  · rw [if_pos h, put_map_find k v st h]
    rfl
  · rw [if_neg h]
    rw [List.find?_append]
    have hnone : st.find? (fun p => p.1 == k) = none :=
      List.find?_eq_none.mpr (fun x hx hbeq => h (List.any_eq_true.mpr ⟨x, hx, hbeq⟩))
    simp [hnone]

theorem storageGet_put_ne (st : List (String × String)) (k k' v : String)
    (hne : k' ≠ k) : storageGet (storagePut st k v) k' = storageGet st k' := by
  have hkk' : (k == k') = false := beq_eq_false_iff_ne.mpr (fun hh => hne hh.symm)
  unfold storagePut storageGet
  by_cases h : (st.any fun p => p.1 == k) = true
  · rw [if_pos h, put_map_find_ne k k' v hne st]
  · rw [if_neg h]
    rw [List.find?_append]
    cases hf : st.find? (fun p => p.1 == k') with
    | some q => simp [hf]
    | none => simp [hf, hkk']

theorem findAssoc_sync (assocs : List Assoc) (cid pid : Int) (level : String)
    (score : Int) (now : Nat) (convId : String) :
    findAssoc (syncWithoutDetaching assocs cid pid level score now convId) cid pid
      = some ⟨cid, pid, level, score, some now, some convId⟩ := by
  unfold syncWithoutDetaching findAssoc
  by_cases h : (assocs.any fun a => a.contact_id == cid && a.property_id == pid) = true
  · rw [if_pos h, sync_map_find cid pid level score now convId assocs h]
  · rw [if_neg h]
    rw [List.find?_append]
    have hnone :
        assocs.find? (fun a => a.contact_id == cid && a.property_id == pid) = none :=
      List.find?_eq_none.mpr (fun x hx hmx => h (List.any_eq_true.mpr ⟨x, hx, hmx⟩))
    simp [hnone]

theorem findAssoc_not_mem (assocs : List Assoc) (cid pid : Int)
    (h : ∀ a ∈ assocs, ¬(a.contact_id = cid ∧ a.property_id = pid)) :
    findAssoc assocs cid pid = none := by
  unfold findAssoc
  rw [List.find?_eq_none]
  intro a ha hb
  simp only [Bool.and_eq_true, beq_iff_eq] at hb
  exact h a ha hb

/-- Whenever the transcript field is truthy, the job leaves the transcript
content in the object store under the deterministic date/conversation key
(the later recording write, if any, targets a different key). -/
theorem handle_storage_transcript (env : JobEnv) (db : Db) (p : Payload)
    (ht : phpTruthyStr (p.transcript.getD "") = true) :
    storageGet (ProcessElevenLabsWebhook.handle env db p).storage
      ("calls/" ++ env.date ++ "/" ++ p.conversation_id.getD "" ++ "-transcript.txt")
      = some (p.transcript.getD "") := by
  rw [handle_storage]
  simp only [ht, if_true]
  by_cases hrec : phpTruthyStr (p.recording_url.getD "") = true
  · simp only [hrec, if_true]
    cases hfr : env.fetchRecording (p.recording_url.getD "") with
    | throwErr => exact storageGet_put_same _ _ _
    | resp status body =>
      dsimp only
      by_cases hst : 200 ≤ status ∧ status < 300
      · rw [if_pos hst]
        rw [storageGet_put_ne _ _ _ _
          (transcriptKey_ne_recordingKey env.date (p.conversation_id.getD ""))]
        exact storageGet_put_same _ _ _
      · rw [if_neg hst]
        exact storageGet_put_same _ _ _
  · have hrec' : phpTruthyStr (p.recording_url.getD "") = false :=
      Bool.not_eq_true _ ▸ eq_false_of_ne_true hrec
    simp only [hrec']
    simp only [Bool.false_eq_true, if_false]
    exact storageGet_put_same _ _ _


/-! ### Claim theorems -/

/-- Claim C3: an inbound webhook request whose signature header does not
equal the base64 HMAC-SHA256 of the raw request body under the shared
secret (a wrong-secret signature and a missing header, cast to `""`, are
instances) is answered with an authentication error and enqueues no
message; a request whose signature matches is enqueued and answered with
`{status: "accepted"}`. -/
theorem c3_webhook_signature_gate (hmacSha256Base64 : String → String → String)
    (secret : String) (queue : List Payload) (req : WebhookRequest) :
    (req.sigHeader.getD "" ≠ hmacSha256Base64 secret req.body →
      ElevenLabsController.handleWebhook hmacSha256Base64 secret queue req
        = ⟨.unauthorized, queue⟩)
    ∧ (req.sigHeader.getD "" = hmacSha256Base64 secret req.body →
      ElevenLabsController.handleWebhook hmacSha256Base64 secret queue req
        = ⟨.accepted, queue ++ [req.payload]⟩) := by
  constructor
  · intro hne
    have hb : ElevenLabsController.verifySignature hmacSha256Base64 secret req = false :=
      beq_eq_false_iff_ne.mpr (fun hh => hne hh.symm)
    unfold ElevenLabsController.handleWebhook
    rw [hb]
    simp
  · intro heq
    have hb : ElevenLabsController.verifySignature hmacSha256Base64 secret req = true :=
      beq_iff_eq.mpr heq.symm
    unfold ElevenLabsController.handleWebhook
    rw [hb]
    simp

/-- Witness for C3: a concrete keyed hash, a mismatching and a matching
request. -/
theorem c3_webhook_signature_gate_witness :
    ElevenLabsController.handleWebhook (fun s b => s ++ "|" ++ b) "secret" []
        ⟨"body", some "wrong|body", ⟨some "c1", none, none, none, some 1, some 2⟩⟩
      = ⟨.unauthorized, []⟩
    ∧ ElevenLabsController.handleWebhook (fun s b => s ++ "|" ++ b) "secret" []
        ⟨"body", some "secret|body", ⟨some "c1", none, none, none, some 1, some 2⟩⟩
      = ⟨.accepted, [⟨some "c1", none, none, none, some 1, some 2⟩]⟩ :=
  ⟨(c3_webhook_signature_gate (fun s b => s ++ "|" ++ b) "secret" []
      ⟨"body", some "wrong|body", ⟨some "c1", none, none, none, some 1, some 2⟩⟩).1
      (by decide),
   (c3_webhook_signature_gate (fun s b => s ++ "|" ++ b) "secret" []
      ⟨"body", some "secret|body", ⟨some "c1", none, none, none, some 1, some 2⟩⟩).2
      (by decide)⟩

/-- Claim C4: when every request receives a server error (5xx) or 429,
the classification client issues exactly 3 attempts with backoff delays
1s, 2s, 4s and returns the default
`{interest_level: unknown, interest_score: 0, rationale: "analysis_failed"}`;
a first response of any other failure class (a non-429 4xx) aborts after
exactly one attempt with the same default.  The embedding is a total
function, so no error is ever propagated. -/
theorem c4_classification_retry_schedule (responses : Nat → Resp)
    (summary : String) :
    ((∀ i, i < 3 → 500 ≤ (responses i).status ∨ (responses i).status = 429) →
      OpenAIService.analyzeCallSummaryForInterestLevel responses summary
        = ⟨3, [1, 2, 4], analysisFailedResult⟩)
    ∧ (400 ≤ (responses 0).status → (responses 0).status < 500 →
       (responses 0).status ≠ 429 →
      OpenAIService.analyzeCallSummaryForInterestLevel responses summary
        = ⟨1, [], analysisFailedResult⟩) :=
  ⟨analyze_all_retryable responses summary, analyze_first_abort responses summary⟩

/-- Witness for C4: a service that always answers 500 and one that
always answers 404. -/
theorem c4_classification_retry_schedule_witness :
    OpenAIService.analyzeCallSummaryForInterestLevel (fun _ => ⟨500, none⟩) "s"
      = ⟨3, [1, 2, 4], analysisFailedResult⟩
    ∧ OpenAIService.analyzeCallSummaryForInterestLevel (fun _ => ⟨404, none⟩) "s"
      = ⟨1, [], analysisFailedResult⟩ :=
  ⟨(c4_classification_retry_schedule (fun _ => ⟨500, none⟩) "s").1
      (fun _ _ => Or.inl (by norm_num)),
   (c4_classification_retry_schedule (fun _ => ⟨404, none⟩) "s").2
      (by norm_num) (by norm_num) (by norm_num)⟩

/-- Claim C5: on a successfully parsed classification response the
client's score is clamped to [0, 100] (150 becomes 100, -5 becomes 0)
and an interest-level value outside {unknown, cold, warm, hot} (such as
"maybe") is coerced to unknown.  The clamped score and coerced level are
returned under the success-path keys `score` and `level`. -/
theorem c5_classification_clamp_and_coerce (responses : Nat → Resp)
    (summary : String) (c : ParsedContent)
    (h1 : 200 ≤ (responses 0).status) (h2 : (responses 0).status < 300)
    (hc : (responses 0).content = some c) :
    (∃ sc : Int,
      arrGet (OpenAIService.analyzeCallSummaryForInterestLevel responses
        summary).result "score" = some (.int sc) ∧ 0 ≤ sc ∧ sc ≤ 100)
    ∧ (c.interest_score = some 150 →
      arrGet (OpenAIService.analyzeCallSummaryForInterestLevel responses
        summary).result "score" = some (.int 100))
    ∧ (c.interest_score = some (-5) →
      arrGet (OpenAIService.analyzeCallSummaryForInterestLevel responses
        summary).result "score" = some (.int 0))
    ∧ (∀ s, c.interest_level = some s →
      s ∉ (["unknown", "cold", "warm", "hot"] : List String) →
      arrGet (OpenAIService.analyzeCallSummaryForInterestLevel responses
        summary).result "level" = some (.str "unknown")) := by
  have ht := analyze_first_success responses summary h1 h2
  rw [hc] at ht
  refine ⟨⟨scoreFromParsed (some c), ?_, scoreFromParsed_nonneg _,
    scoreFromParsed_le _⟩, ?_, ?_, ?_⟩
  · rw [ht]
    exact arrGet_result_score _ _ _
  · intro hsc
    have hv : scoreFromParsed (some c) = 100 := by
      show max 0 (min 100 (c.interest_score.getD 0)) = 100
      rw [hsc]
      norm_num
    rw [ht, arrGet_result_score, hv]
  · intro hsc
    have hv : scoreFromParsed (some c) = 0 := by
      show max 0 (min 100 (c.interest_score.getD 0)) = 0
      rw [hsc]
      norm_num
    rw [ht, arrGet_result_score, hv]
  · intro s hs hnotmem
    have hv : levelFromParsed (some c) = "unknown" := by
      unfold levelFromParsed
      rw [show (some c).bind (fun x => x.interest_level) = some s from by
        simp [hs]]
      simp [hnotmem]
    rw [ht, arrGet_result_level, hv]

/-- Witness for C5: a parsed response with level "maybe" and score 150,
and one with score -5. -/
theorem c5_classification_clamp_and_coerce_witness :
    (arrGet (OpenAIService.analyzeCallSummaryForInterestLevel
        (fun _ => ⟨200, some ⟨some "maybe", some 150, some "r"⟩⟩) "s").result
      "score" = some (.int 100)
    ∧ arrGet (OpenAIService.analyzeCallSummaryForInterestLevel
        (fun _ => ⟨200, some ⟨some "maybe", some 150, some "r"⟩⟩) "s").result
      "level" = some (.str "unknown"))
    ∧ arrGet (OpenAIService.analyzeCallSummaryForInterestLevel
        (fun _ => ⟨200, some ⟨some "cold", some (-5), some "r"⟩⟩) "s").result
      "score" = some (.int 0) :=
  ⟨⟨((c5_classification_clamp_and_coerce
        (fun _ => ⟨200, some ⟨some "maybe", some 150, some "r"⟩⟩) "s"
        ⟨some "maybe", some 150, some "r"⟩ (by norm_num) (by norm_num) rfl).2.1 rfl),
    ((c5_classification_clamp_and_coerce
        (fun _ => ⟨200, some ⟨some "maybe", some 150, some "r"⟩⟩) "s"
        ⟨some "maybe", some 150, some "r"⟩ (by norm_num) (by norm_num) rfl).2.2.2
        "maybe" rfl (by decide))⟩,
   ((c5_classification_clamp_and_coerce
        (fun _ => ⟨200, some ⟨some "cold", some (-5), some "r"⟩⟩) "s"
        ⟨some "cold", some (-5), some "r"⟩ (by norm_num) (by norm_num) rfl).2.2.1 rfl)⟩

/-- Counterexample to C6 as stated: on the success path the returned
array's keys are `level` / `score` / `rationale`, not `interest_level` /
`interest_score` / `rationale` — reading `interest_level` from a
successful result yields nothing. -/
theorem c6_success_path_keys_differ :
    arrGet (OpenAIService.analyzeCallSummaryForInterestLevel
      (fun _ => ⟨200, some ⟨some "hot", some 88, some "keen"⟩⟩) "great").result
      "interest_level" = none
    ∧ arrGet (OpenAIService.analyzeCallSummaryForInterestLevel
      (fun _ => ⟨200, some ⟨some "hot", some 88, some "keen"⟩⟩) "great").result
      "level" = some (.str "hot")
    ∧ arrGet (OpenAIService.analyzeCallSummaryForInterestLevel
      (fun _ => ⟨200, some ⟨some "hot", some 88, some "keen"⟩⟩) "great").result
      "interest_score" = none
    ∧ arrGet (OpenAIService.analyzeCallSummaryForInterestLevel
      (fun _ => ⟨200, some ⟨some "hot", some 88, some "keen"⟩⟩) "great").result
      "score" = some (.int 88) := by
  decide

/-- Claim C6 (amended): the client's return value always has exactly
three fields, but the keys differ by path: the failure path returns
`{interest_level: unknown, interest_score: 0, rationale:
"analysis_failed"}`, while the success path returns `{level, score,
rationale}` with level in the four-value enum and score in [0, 100]. -/
theorem c6_result_shape_amended (responses : Nat → Resp) (summary : String) :
    (OpenAIService.analyzeCallSummaryForInterestLevel responses summary).result
        = analysisFailedResult
    ∨ ∃ lvl sc rat,
        (OpenAIService.analyzeCallSummaryForInterestLevel responses summary).result
          = [("level", .str lvl), ("score", .int sc), ("rationale", .str rat)]
        ∧ lvl ∈ (["unknown", "cold", "warm", "hot"] : List String)
        ∧ 0 ≤ sc ∧ sc ≤ 100 := by
  unfold OpenAIService.analyzeCallSummaryForInterestLevel
  cases hlast : (analyzeLoop responses 0 [1, 2, 4]).last with
  | none => left; simp [hlast]
  | some r =>
    cases hf : respFailed r with
    | true => left; simp [hlast, hf]
    | false =>
      right
      refine ⟨levelFromParsed r.content, scoreFromParsed r.content,
        rationaleFromParsed r.content, ?_, levelFromParsed_mem _,
        scoreFromParsed_nonneg _, scoreFromParsed_le _⟩
      simp [hlast, hf]

/-- Counterexample to C7 as stated: with an empty summary the client
still issues a request (attempts = 1, not 0) and returns the parsed
service result (here hot/88), not the default. -/
theorem c7_empty_summary_still_calls_service :
    (OpenAIService.analyzeCallSummaryForInterestLevel
        (fun _ => ⟨200, some ⟨some "hot", some 88, some "r"⟩⟩) "").attempts = 1
    ∧ arrGet (OpenAIService.analyzeCallSummaryForInterestLevel
        (fun _ => ⟨200, some ⟨some "hot", some 88, some "r"⟩⟩) "").result "level"
      = some (.str "hot") := by
  decide

/-- Claim C7 (amended): the client has no empty-summary short-circuit:
for an empty summary it still issues between 1 and 3 requests to the
reasoning service, exactly as for any other summary. -/
theorem c7_empty_summary_amended (responses : Nat → Resp) :
    1 ≤ (OpenAIService.analyzeCallSummaryForInterestLevel responses "").attempts
    ∧ (OpenAIService.analyzeCallSummaryForInterestLevel responses "").attempts ≤ 3 := by
  constructor
  · rw [analyze_attempts_eq]
    exact analyzeLoop_attempts_pos responses 0 1 [2, 4]
  · rw [analyze_attempts_eq]
    simpa using analyzeLoop_attempts_le responses [1, 2, 4] 0

/-- Claim C1 is violated by the code: the job creates a Note whenever
the contact (or property) resolves, with no check for an existing Note
keyed by the conversation identifier, so re-delivering the identical
event for conversation "c2" commits a second Call Artifact.  (The repo's
own appendix instructs "Use conversation_id to deduplicate webhook
processing if the provider retries".) -/
theorem c1_redelivered_event_creates_second_call_artifact :
    ((ProcessElevenLabsWebhook.handle
        ⟨"2024/01/01", 1000, fun _ => .throwErr, fun _ => ⟨500, none⟩⟩
        (ProcessElevenLabsWebhook.handle
          ⟨"2024/01/01", 1000, fun _ => .throwErr, fun _ => ⟨500, none⟩⟩
          ⟨[1], [2], [], [], []⟩
          ⟨some "c2", some "the lead is keen", none, none, some 1, some 2⟩)
        ⟨some "c2", some "the lead is keen", none, none, some 1, some 2⟩).notes.filter
      (fun n => n.conversation_id == some "c2")).length = 2 := by
  decide

/-- Counterexample to C2 as stated: an event with no conversation
identifier is processed in full — the transcript is stored (under the
key with an empty identifier segment), a Call Artifact is created, the
classification result is applied, and the Association is updated. -/
theorem c2_missing_conversation_id_is_fully_processed :
    (ProcessElevenLabsWebhook.handle
        ⟨"2024/01/01", 1000, fun _ => .throwErr,
         fun _ => ⟨200, some ⟨some "hot", some 88, some "r"⟩⟩⟩
        ⟨[1], [2], [], [], []⟩
        ⟨none, some "keen", some "hello transcript", none, some 1, some 2⟩).notes.length
      = 1
    ∧ storageGet (ProcessElevenLabsWebhook.handle
        ⟨"2024/01/01", 1000, fun _ => .throwErr,
         fun _ => ⟨200, some ⟨some "hot", some 88, some "r"⟩⟩⟩
        ⟨[1], [2], [], [], []⟩
        ⟨none, some "keen", some "hello transcript", none, some 1, some 2⟩).storage
        "calls/2024/01/01/-transcript.txt" = some "hello transcript"
    ∧ findAssoc (ProcessElevenLabsWebhook.handle
        ⟨"2024/01/01", 1000, fun _ => .throwErr,
         fun _ => ⟨200, some ⟨some "hot", some 88, some "r"⟩⟩⟩
        ⟨[1], [2], [], [], []⟩
        ⟨none, some "keen", some "hello transcript", none, some 1, some 2⟩).assocs 1 2
      = some ⟨1, 2, "hot", 88, some 1000, some ""⟩ := by
  decide

/-- Claim C2 (amended): the processor performs no conversation-identifier
validation.  A missing identifier is coerced to the empty string and
processing continues in full: a truthy transcript is stored under the
key with an empty identifier segment, a Note is created (with
conversation_id null) when the contact resolves, and the Association is
updated with last_conversation_id = "" when both ids are truthy and the
contact resolves. -/
theorem c2_missing_conversation_id_processing_amended (env : JobEnv) (db : Db)
    (p : Payload) (hid : p.conversation_id = none) :
    (phpTruthyStr (p.transcript.getD "") = true →
      storageGet (ProcessElevenLabsWebhook.handle env db p).storage
        ("calls/" ++ env.date ++ "/-transcript.txt") = some (p.transcript.getD ""))
    ∧ (p.contact_id.getD 0 ∈ db.contacts →
      ∃ n, (ProcessElevenLabsWebhook.handle env db p).notes = db.notes ++ [n]
        ∧ n.conversation_id = none)
    ∧ (p.contact_id.getD 0 ≠ 0 → p.property_id.getD 0 ≠ 0 →
       p.contact_id.getD 0 ∈ db.contacts →
      ∃ a, findAssoc (ProcessElevenLabsWebhook.handle env db p).assocs
          (p.contact_id.getD 0) (p.property_id.getD 0) = some a
        ∧ a.last_conversation_id = some "") := by
  have hid' : p.conversation_id.getD "" = "" := by rw [hid]; rfl
  refine ⟨?_, ?_, ?_⟩
  · intro ht
    have h := handle_storage_transcript env db p ht
    rw [hid', emptyCid_transcript_key env.date] at h
    exact h
  · intro hc
    rw [handle_notes]
    rw [findId_mem db.contacts (p.contact_id.getD 0) hc]
    simp only [Option.map_some', Option.some_orElse]
    refine ⟨_, rfl, ?_⟩
    have hfalse : phpTruthyStr (p.conversation_id.getD "") = false := by
      rw [hid']
      rfl
    simp [hfalse]
  · intro hc0 hp0 hcm
    rw [handle_assocs]
    rw [if_pos ⟨hc0, hp0⟩]
    rw [findId_mem db.contacts (p.contact_id.getD 0) hcm]
    dsimp only
    rw [hid']
    rw [findAssoc_sync]
    exact ⟨_, rfl, rfl⟩

/-- Witness for the amended C2: a concrete event with no conversation
identifier, a resolvable contact and a truthy transcript. -/
theorem c2_missing_conversation_id_processing_amended_witness :
    storageGet (ProcessElevenLabsWebhook.handle
        ⟨"2024/01/01", 1000, fun _ => .throwErr, fun _ => ⟨500, none⟩⟩
        ⟨[1], [2], [], [], []⟩
        ⟨none, some "keen", some "hello", none, some 1, some 2⟩).storage
        ("calls/" ++ "2024/01/01" ++ "/-transcript.txt") = some "hello"
    ∧ (∃ n, (ProcessElevenLabsWebhook.handle
        ⟨"2024/01/01", 1000, fun _ => .throwErr, fun _ => ⟨500, none⟩⟩
        ⟨[1], [2], [], [], []⟩
        ⟨none, some "keen", some "hello", none, some 1, some 2⟩).notes = [] ++ [n]
        ∧ n.conversation_id = none) :=
  ⟨(c2_missing_conversation_id_processing_amended
      ⟨"2024/01/01", 1000, fun _ => .throwErr, fun _ => ⟨500, none⟩⟩
      ⟨[1], [2], [], [], []⟩
      ⟨none, some "keen", some "hello", none, some 1, some 2⟩ rfl).1 (by decide),
   (c2_missing_conversation_id_processing_amended
      ⟨"2024/01/01", 1000, fun _ => .throwErr, fun _ => ⟨500, none⟩⟩
      ⟨[1], [2], [], [], []⟩
      ⟨none, some "keen", some "hello", none, some 1, some 2⟩ rfl).2.1 (by decide)⟩

/-- Claim C8: when both the contact and the property ids are truthy and
resolve to existing records, processing the event leaves the Association
for that (lead, listing) pair holding the classification result —
interest_level, interest_score, last_contacted_at = now,
last_conversation_id = the event's conversation identifier — with
create-or-update semantics (no pre-existing pivot row is required: the
pair is attached if absent, updated otherwise). -/
theorem c8_association_updated_with_classification (env : JobEnv) (db : Db)
    (p : Payload) (lvl rat : String) (sc : Int)
    (hc0 : p.contact_id.getD 0 ≠ 0) (hp0 : p.property_id.getD 0 ≠ 0)
    (hcm : p.contact_id.getD 0 ∈ db.contacts)
    (hpm : p.property_id.getD 0 ∈ db.properties)
    (h1 : 200 ≤ (env.classResponses 0).status)
    (h2 : (env.classResponses 0).status < 300)
    (hct : (env.classResponses 0).content = some ⟨some lvl, some sc, some rat⟩)
    (hl : lvl ∈ (["unknown", "cold", "warm", "hot"] : List String))
    (hs1 : 0 ≤ sc) (hs2 : sc ≤ 100) :
    findAssoc (ProcessElevenLabsWebhook.handle env db p).assocs
        (p.contact_id.getD 0) (p.property_id.getD 0)
      = some ⟨p.contact_id.getD 0, p.property_id.getD 0, lvl, sc, some env.now,
              some (p.conversation_id.getD "")⟩ := by
  have ht := analyze_first_success env.classResponses (p.summary.getD "") h1 h2
  rw [hct] at ht
  have hlvl : levelFromParsed (some ⟨some lvl, some sc, some rat⟩) = lvl := by
    simp [levelFromParsed, hl]
  have hsc : scoreFromParsed (some ⟨some lvl, some sc, some rat⟩) = sc := by
    show max 0 (min 100 sc) = sc
    rw [min_eq_right hs2, max_eq_right hs1]
  rw [handle_assocs, if_pos ⟨hc0, hp0⟩]
  rw [findId_mem db.contacts (p.contact_id.getD 0) hcm]
  dsimp only
  rw [ht]
  dsimp only
  rw [arrGet_result_level, arrGet_result_score]
  simp only [Option.map_some', Option.getD_some]
  simp only [phpValToStr, phpValToInt]
  rw [hlvl, hsc]
  exact findAssoc_sync db.assocs (p.contact_id.getD 0) (p.property_id.getD 0)
    lvl sc env.now (p.conversation_id.getD "")

/-- Witness for C8: the spec's scenario — event
{conversation_id: "c1", contact_id: 1, property_id: 2} with the service
returning {interest_level: "hot", interest_score: 88} leaves
Association(1, 2) = (hot, 88, now, "c1"), created fresh here. -/
theorem c8_association_updated_with_classification_witness :
    findAssoc (ProcessElevenLabsWebhook.handle
        ⟨"2024/01/01", 1000, fun _ => .throwErr,
         fun _ => ⟨200, some ⟨some "hot", some 88, some "keen"⟩⟩⟩
        ⟨[1], [2], [], [], []⟩
        ⟨some "c1", some "very interested, wants inspection", none, none,
         some 1, some 2⟩).assocs 1 2
      = some ⟨1, 2, "hot", 88, some 1000, some "c1"⟩ :=
  c8_association_updated_with_classification
    ⟨"2024/01/01", 1000, fun _ => .throwErr,
     fun _ => ⟨200, some ⟨some "hot", some 88, some "keen"⟩⟩⟩
    ⟨[1], [2], [], [], []⟩
    ⟨some "c1", some "very interested, wants inspection", none, none,
     some 1, some 2⟩
    "hot" "keen" 88 (by decide) (by decide) (by decide) (by decide)
    (by norm_num) (by norm_num) rfl (by decide) (by norm_num) (by norm_num)

/-- Claim C9: the Call Artifact's polymorphic owner is the contact
whenever the contact id resolves — the contact lookup takes precedence —
and the property is used as owner only when the contact does not
resolve. -/
theorem c9_artifact_owner_contact_precedence (env : JobEnv) (db : Db)
    (p : Payload) :
    (p.contact_id.getD 0 ∈ db.contacts →
      ∃ n, (ProcessElevenLabsWebhook.handle env db p).notes = db.notes ++ [n]
        ∧ n.notable = NotableRef.contact (p.contact_id.getD 0))
    ∧ (p.contact_id.getD 0 ∉ db.contacts →
       p.property_id.getD 0 ∈ db.properties →
      ∃ n, (ProcessElevenLabsWebhook.handle env db p).notes = db.notes ++ [n]
        ∧ n.notable = NotableRef.property (p.property_id.getD 0)) := by
  constructor
  · intro hc
    rw [handle_notes]
    rw [findId_mem db.contacts (p.contact_id.getD 0) hc]
    simp only [Option.map_some', Option.some_orElse]
    exact ⟨_, rfl, rfl⟩
  · intro hc hp
    rw [handle_notes]
    rw [findId_not_mem db.contacts (p.contact_id.getD 0) hc]
    rw [findId_mem db.properties (p.property_id.getD 0) hp]
    simp only [Option.map_some', Option.map_none', Option.none_orElse]
    exact ⟨_, rfl, rfl⟩

/-- Witness for C9: with both records existing the owner is the contact;
with no contact the owner is the property. -/
theorem c9_artifact_owner_contact_precedence_witness :
    (∃ n, (ProcessElevenLabsWebhook.handle
        ⟨"2024/01/01", 1000, fun _ => .throwErr, fun _ => ⟨500, none⟩⟩
        ⟨[1], [2], [], [], []⟩
        ⟨some "c3", some "s", none, none, some 1, some 2⟩).notes = [] ++ [n]
      ∧ n.notable = NotableRef.contact 1)
    ∧ (∃ n, (ProcessElevenLabsWebhook.handle
        ⟨"2024/01/01", 1000, fun _ => .throwErr, fun _ => ⟨500, none⟩⟩
        ⟨[], [2], [], [], []⟩
        ⟨some "c3", some "s", none, none, some 1, some 2⟩).notes = [] ++ [n]
      ∧ n.notable = NotableRef.property 2) :=
  ⟨(c9_artifact_owner_contact_precedence
      ⟨"2024/01/01", 1000, fun _ => .throwErr, fun _ => ⟨500, none⟩⟩
      ⟨[1], [2], [], [], []⟩
      ⟨some "c3", some "s", none, none, some 1, some 2⟩).1 (by decide),
   (c9_artifact_owner_contact_precedence
      ⟨"2024/01/01", 1000, fun _ => .throwErr, fun _ => ⟨500, none⟩⟩
      ⟨[], [2], [], [], []⟩
      ⟨some "c3", some "s", none, none, some 1, some 2⟩).2 (by decide) (by decide)⟩

/-- Claim C10: when neither the contact nor the property id resolves to
an existing record, the job leaves the relational store unchanged — no
Note is created and no pivot row is created or modified — while a truthy
transcript is still written to object storage; the embedded `handle` is
a total function on this path (the PHP body raises no exception here),
so the message is acknowledged rather than retried. -/
theorem c10_unresolvable_ids_leave_relational_store_unchanged (env : JobEnv)
    (db : Db) (p : Payload)
    (hc : p.contact_id.getD 0 ∉ db.contacts)
    (hp : p.property_id.getD 0 ∉ db.properties) :
    (ProcessElevenLabsWebhook.handle env db p).notes = db.notes
    ∧ (ProcessElevenLabsWebhook.handle env db p).assocs = db.assocs
    ∧ (phpTruthyStr (p.transcript.getD "") = true →
      storageGet (ProcessElevenLabsWebhook.handle env db p).storage
        ("calls/" ++ env.date ++ "/" ++ p.conversation_id.getD ""
          ++ "-transcript.txt")
        = some (p.transcript.getD "")) := by
  refine ⟨?_, ?_, fun ht => handle_storage_transcript env db p ht⟩
  · rw [handle_notes]
    rw [findId_not_mem db.contacts (p.contact_id.getD 0) hc]
    rw [findId_not_mem db.properties (p.property_id.getD 0) hp]
    simp only [Option.map_none', Option.none_orElse]
  · rw [handle_assocs]
    by_cases hco : p.contact_id.getD 0 ≠ 0 ∧ p.property_id.getD 0 ≠ 0
    · rw [if_pos hco]
      rw [findId_not_mem db.contacts (p.contact_id.getD 0) hc]
    · rw [if_neg hco]

/-- Witness for C10: ids 5 and 6 resolve to nothing; the transcript is
still stored and the notes and pivot tables are untouched. -/
theorem c10_unresolvable_ids_leave_relational_store_unchanged_witness :
    (ProcessElevenLabsWebhook.handle
        ⟨"2024/01/01", 1000, fun _ => .throwErr, fun _ => ⟨500, none⟩⟩
        ⟨[1], [2], [], [], []⟩
        ⟨some "c4", some "s", some "tr", none, some 5, some 6⟩).notes = []
    ∧ (ProcessElevenLabsWebhook.handle
        ⟨"2024/01/01", 1000, fun _ => .throwErr, fun _ => ⟨500, none⟩⟩
        ⟨[1], [2], [], [], []⟩
        ⟨some "c4", some "s", some "tr", none, some 5, some 6⟩).assocs = []
    ∧ (phpTruthyStr ((some "tr" : Option String).getD "") = true →
      storageGet (ProcessElevenLabsWebhook.handle
        ⟨"2024/01/01", 1000, fun _ => .throwErr, fun _ => ⟨500, none⟩⟩
        ⟨[1], [2], [], [], []⟩
        ⟨some "c4", some "s", some "tr", none, some 5, some 6⟩).storage
        ("calls/" ++ "2024/01/01" ++ "/" ++ "c4" ++ "-transcript.txt")
        = some "tr") :=
  c10_unresolvable_ids_leave_relational_store_unchanged
    ⟨"2024/01/01", 1000, fun _ => .throwErr, fun _ => ⟨500, none⟩⟩
    ⟨[1], [2], [], [], []⟩
    ⟨some "c4", some "s", some "tr", none, some 5, some 6⟩
    (by decide) (by decide)
